import Mathlib

/-!
Verification development for the Kokoro-Local-Gui repository.

Shallow embedding of the pure control flow of the repository:
- tts_wrapper.py (KokoroTTSWrapper.synthesize, save_audio)
- ui_main.py (on_synthesize_clicked / run_synthesis, clear_temp_files)
- persistence.py (load_generations, save_generations)
- temp_cleanup.py (cleanup_temp_files)
- models.py (download_file, download_voice_files, build_model, load_voice)

Modelling choices, stated once:
- The file system is a list of path strings that currently exist
  (sf.write and hf_hub_download create the path; os.path.exists is
  membership).  File writes are modelled as succeeding; audio sample
  buffers are opaque integer lists, since no claim depends on sample
  values.
- The lazy generator returned by the pipeline is modelled as a finite
  list of (graphemes, phonemes, optional audio) triples; an absent
  audio tensor (None in the source) is Option.none.
- Exceptions are Except values; the only failure point inside
  KokoroTTSWrapper.synthesize that the claims quantify over is
  load_voice, modelled by a Boolean voiceOk.
-/

namespace Kokoro

/-- A file system: the list of paths that exist. -/
abbrev FS := List String

/-- Membership test modelling os.path.exists. -/
def fileExists : FS → String → Bool
  | [], _ => false
  | p :: ps, q => p == q || fileExists ps q

/-- Modelling KokoroTTSWrapper.save_audio: sf.write creates the file at
the given path (the int16 conversion does not affect any claim). -/
def saveAudio (fs : FS) (fp : String) : FS := fp :: fs

/-- One item yielded by the raw pipeline generator: a
(graphemes, phonemes, audio_tensor) triple where the tensor may be None. -/
structure RawChunk where
  gs : String
  ps : String
  audio : Option (List Int)
deriving DecidableEq, Repr

/-- Does the raw item carry an audio tensor (audio_tensor is not None)? -/
def hasAudio (c : RawChunk) : Bool := c.audio.isSome

/-- One element of synthesis_result_list in the source:
(gs, ps, audio_data_numpy, chunk_filepath). -/
structure SynthChunk where
  gs : String
  ps : String
  audio : List Int
  filepath : String
deriving DecidableEq, Repr

/-- Path of an individual chunk file, as built in synthesize:
os.path.join(temp_dir, chunk_TIMESTAMP_INDEX.wav). -/
def chunkFilepath (tempDir ts : String) (i : Nat) : String :=
  tempDir ++ "/chunk_" ++ ts ++ "_" ++ toString i ++ ".wav"

/-- Path of the combined file, as built in synthesize:
os.path.join(temp_dir, combined_TIMESTAMP.wav). -/
def combinedFilepath (tempDir ts : String) : String :=
  tempDir ++ "/combined_" ++ ts ++ ".wav"

/-- The for-loop of KokoroTTSWrapper.synthesize: enumerate the generator
with a running index; items whose audio is None are skipped (the index
still advances, matching enumerate); items with audio are saved to a chunk
file and appended to synthesis_result_list.  Returns the accumulated list
and the file system after the chunk writes. -/
def synthLoop (tempDir ts : String) : List RawChunk → Nat → FS → List SynthChunk × FS
  | [], _, fs => ([], fs)
  | c :: rest, i, fs =>
    match c.audio with
    | none => synthLoop tempDir ts rest (i + 1) fs
    | some a =>
      let fp := chunkFilepath tempDir ts i
      let r := synthLoop tempDir ts rest (i + 1) (saveAudio fs fp)
      (⟨c.gs, c.ps, a, fp⟩ :: r.1, r.2)

/-- Body of KokoroTTSWrapper.synthesize after load_voice succeeded: run
the loop; if all_audio_tensors is non-empty (equivalently, the result list
is non-empty), write the combined file and return it, else return an
empty list and no combined path. -/
def synthesize (tempDir ts : String) (raw : List RawChunk) (fs : FS) :
    List SynthChunk × Option String × FS :=
  let r := synthLoop tempDir ts raw 0 fs
  if r.1.isEmpty then ([], none, r.2)
  else
    let cf := combinedFilepath tempDir ts
    (r.1, some cf, saveAudio r.2 cf)

/-- KokoroTTSWrapper.synthesize including the load_voice call at its top:
if the voice fails to load the exception propagates (the final except
clause re-raises), otherwise the pure body runs. -/
def synthesizeCall (voiceOk : Bool) (tempDir ts : String) (raw : List RawChunk) (fs : FS) :
    Except Unit (List SynthChunk × Option String × FS) :=
  if voiceOk then .ok (synthesize tempDir ts raw fs) else .error ()

theorem synthLoop_length (tempDir ts : String) (raw : List RawChunk) :
    ∀ (i : Nat) (fs : FS),
      (synthLoop tempDir ts raw i fs).1.length = raw.countP hasAudio := by
  induction raw with
  | nil => intro i fs; simp [synthLoop, List.countP_nil]
  | cons c rest ih =>
    intro i fs
    cases hc : c.audio with
    | none =>
      simp [synthLoop, hc, List.countP_cons, hasAudio, ih]
    | some a =>
      simp [synthLoop, hc, List.countP_cons, hasAudio, ih]

theorem synthLoop_fs_of_no_audio (tempDir ts : String) (raw : List RawChunk)
    (h : raw.countP hasAudio = 0) :
    ∀ (i : Nat) (fs : FS), (synthLoop tempDir ts raw i fs).2 = fs := by
  induction raw with
  | nil => intro i fs; simp [synthLoop]
  | cons c rest ih =>
    intro i fs
    rw [List.countP_cons] at h
    cases hc : c.audio with
    | none =>
      have hrest : rest.countP hasAudio = 0 := by omega
      simp [synthLoop, hc, ih hrest]
    | some a =>
      exfalso
      have : hasAudio c = true := by simp [hasAudio, hc]
      simp [this] at h

theorem fileExists_saveAudio (fs : FS) (fp : String) :
    fileExists (saveAudio fs fp) fp = true := by
  simp [saveAudio, fileExists]

theorem synthesize_fst_length (tempDir ts : String) (raw : List RawChunk) (fs : FS) :
    (synthesize tempDir ts raw fs).1.length = raw.countP hasAudio := by
  unfold synthesize
  by_cases hE : (synthLoop tempDir ts raw 0 fs).1.isEmpty
  · have h0 : (synthLoop tempDir ts raw 0 fs).1 = [] := by
      rwa [List.isEmpty_iff] at hE
    simp only [hE, if_true]
    rw [← synthLoop_length tempDir ts raw 0 fs, h0]
  · simp only [hE, if_false]
    exact synthLoop_length tempDir ts raw 0 fs

/-- Claim C1: if the raw synthesis sequence yields zero non-empty audio
chunks and the voice loads successfully, synthesize returns an empty
chunk list and no combined path, does not throw, and writes no file. -/
theorem C1_zero_chunks_empty_result (tempDir ts : String) (raw : List RawChunk) (fs : FS)
    (h : raw.countP hasAudio = 0) :
    synthesizeCall true tempDir ts raw fs = .ok ([], none, fs) := by
  unfold synthesizeCall synthesize
  have hlen : (synthLoop tempDir ts raw 0 fs).1.length = 0 := by
    rw [synthLoop_length]; exact h
  have h1 : (synthLoop tempDir ts raw 0 fs).1 = [] := List.length_eq_zero.mp hlen
  have h2 : (synthLoop tempDir ts raw 0 fs).2 = fs :=
    synthLoop_fs_of_no_audio tempDir ts raw h 0 fs
  simp [h1, h2]

theorem C1_witness :
    ([⟨"a", "A", none⟩] : List RawChunk).countP hasAudio = 0 ∧
      synthesizeCall true "temp_audio" "20250101_000000" [⟨"a", "A", none⟩] [] =
        .ok ([], none, []) :=
  ⟨by decide,
   C1_zero_chunks_empty_result "temp_audio" "20250101_000000" [⟨"a", "A", none⟩] [] (by decide)⟩

/-- Claim C2: if the raw synthesis sequence yields at least one non-empty
audio chunk, the returned chunk list has length equal to the number of
non-empty segments in the raw sequence, and a combined artifact path is
returned that exists in the resulting file system. -/
theorem C2_chunk_count_and_combined (tempDir ts : String) (raw : List RawChunk) (fs : FS)
    (h : 0 < raw.countP hasAudio) :
    ∃ chunks fs',
      synthesizeCall true tempDir ts raw fs =
        .ok (chunks, some (combinedFilepath tempDir ts), fs') ∧
      chunks.length = raw.countP hasAudio ∧
      fileExists fs' (combinedFilepath tempDir ts) = true := by
  have hlen : (synthLoop tempDir ts raw 0 fs).1.length = raw.countP hasAudio :=
    synthLoop_length tempDir ts raw 0 fs
  have hne : (synthLoop tempDir ts raw 0 fs).1.isEmpty = false := by
    cases hl : (synthLoop tempDir ts raw 0 fs).1 with
    | nil => exfalso; rw [hl] at hlen; simp at hlen; omega
    | cons c cs => simp
  refine ⟨(synthLoop tempDir ts raw 0 fs).1,
          saveAudio (synthLoop tempDir ts raw 0 fs).2 (combinedFilepath tempDir ts), ?_, hlen, ?_⟩
  · unfold synthesizeCall synthesize
    simp [hne]
  · exact fileExists_saveAudio _ _

theorem C2_witness :
    0 < ([⟨"hi", "HI", some [3, 4]⟩, ⟨"b", "B", none⟩] : List RawChunk).countP hasAudio ∧
      ∃ chunks fs',
        synthesizeCall true "temp_audio" "ts" [⟨"hi", "HI", some [3, 4]⟩, ⟨"b", "B", none⟩] [] =
          .ok (chunks, some (combinedFilepath "temp_audio" "ts"), fs') ∧
        chunks.length =
          ([⟨"hi", "HI", some [3, 4]⟩, ⟨"b", "B", none⟩] : List RawChunk).countP hasAudio ∧
        fileExists fs' (combinedFilepath "temp_audio" "ts") = true :=
  ⟨by decide,
   C2_chunk_count_and_combined "temp_audio" "ts" [⟨"hi", "HI", some [3, 4]⟩, ⟨"b", "B", none⟩] []
     (by decide)⟩

/-! ### Generation ledger records (ui_main.py, run_synthesis) -/

/-- Per-chunk metadata stored in a generation record:
the dict with keys graphemes, phonemes, filepath built in run_synthesis. -/
structure ChunkMeta where
  graphemes : String
  phonemes : String
  filepath : String
deriving DecidableEq, Repr

/-- A generation record: the dict with keys timestamp, chunks, combined
built in run_synthesis.  time.time() is an opaque numeric stamp, modelled
as an integer. -/
structure GenRecord where
  timestamp : Int
  chunks : List ChunkMeta
  combined : String
deriving DecidableEq, Repr

/-- Build the gen dict of run_synthesis from the synthesize result: the
chunks field maps each synthesis chunk to its metadata, and the combined
field is the combined path when it is truthy and exists on disk at
recording time, else the empty string. -/
def mkGen (tsNum : Int) (fs : FS) (chunks : List SynthChunk) (comb : Option String) :
    GenRecord where
  timestamp := tsNum
  chunks := chunks.map (fun c => ⟨c.gs, c.ps, c.filepath⟩)
  combined :=
    match comb with
    | none => ""
    | some p => if p ≠ "" ∧ fileExists fs p = true then p else ""

/-- The ledger effect of run_synthesis: synthesize either raises (except
branch: the ledger is untouched) or returns a result, in which case the
gen dict is appended (a returned pair is always truthy in the source).
Returns the final file system and ledger. -/
def synthesisFlow (tempDir ts : String) (tsNum : Int) (voiceOk : Bool)
    (raw : List RawChunk) (fs : FS) (ledger : List GenRecord) : FS × List GenRecord :=
  match synthesizeCall voiceOk tempDir ts raw fs with
  | .error _ => (fs, ledger)
  | .ok (chunks, comb, fs') => (fs', ledger ++ [mkGen tsNum fs' chunks comb])

theorem mkGen_combined_exists (tsNum : Int) (fs : FS) (chunks : List SynthChunk)
    (comb : Option String) (h : (mkGen tsNum fs chunks comb).combined ≠ "") :
    fileExists fs (mkGen tsNum fs chunks comb).combined = true := by
  unfold mkGen at *
  cases comb with
  | none => exact absurd rfl h
  | some p =>
    simp only at h ⊢
    by_cases hc : p ≠ "" ∧ fileExists fs p = true
    · rw [if_pos hc] at h ⊢; exact hc.2
    · rw [if_neg hc] at h; exact absurd rfl h

/-- Claim C7: for every synthesis submission, the ledger is updated
atomically: either it is left unchanged (synthesis raised), or exactly
one record is appended, and that record is complete, carrying the given
timestamp, one metadata entry per non-empty raw segment, and a combined
field that, when non-empty, exists in the resulting file system. -/
theorem C7_ledger_atomic (tempDir ts : String) (tsNum : Int) (voiceOk : Bool)
    (raw : List RawChunk) (fs : FS) (ledger : List GenRecord) :
    (synthesisFlow tempDir ts tsNum voiceOk raw fs ledger).2 = ledger ∨
    ∃ r, (synthesisFlow tempDir ts tsNum voiceOk raw fs ledger).2 = ledger ++ [r] ∧
      r.timestamp = tsNum ∧
      r.chunks.length = raw.countP hasAudio ∧
      (r.combined ≠ "" →
        fileExists (synthesisFlow tempDir ts tsNum voiceOk raw fs ledger).1 r.combined = true) := by
  cases voiceOk with
  | false => left; simp [synthesisFlow, synthesizeCall]
  | true =>
    right
    have hflow : synthesisFlow tempDir ts tsNum true raw fs ledger =
        ((synthesize tempDir ts raw fs).2.2,
         ledger ++ [mkGen tsNum (synthesize tempDir ts raw fs).2.2
                      (synthesize tempDir ts raw fs).1 (synthesize tempDir ts raw fs).2.1]) := by
      simp [synthesisFlow, synthesizeCall]
    refine ⟨mkGen tsNum (synthesize tempDir ts raw fs).2.2
              (synthesize tempDir ts raw fs).1 (synthesize tempDir ts raw fs).2.1, ?_, rfl, ?_, ?_⟩
    · rw [hflow]
    · show ((synthesize tempDir ts raw fs).1.map _).length = _
      rw [List.length_map]
      exact synthesize_fst_length tempDir ts raw fs
    · intro hne
      rw [hflow]
      exact mkGen_combined_exists _ _ _ _ hne

/-- Claim C9: every record present after a synthesis submission is either
a pre-existing record or satisfies the recording-time invariant: a
non-empty combined field references a file existing in the file system at
the moment the record was created and appended. -/
theorem C9_combined_invariant (tempDir ts : String) (tsNum : Int) (voiceOk : Bool)
    (raw : List RawChunk) (fs : FS) (ledger : List GenRecord) (r : GenRecord)
    (hr : r ∈ (synthesisFlow tempDir ts tsNum voiceOk raw fs ledger).2) :
    r ∈ ledger ∨
      (r.combined ≠ "" →
        fileExists (synthesisFlow tempDir ts tsNum voiceOk raw fs ledger).1 r.combined = true) := by
  cases voiceOk with
  | false =>
    left
    simpa [synthesisFlow, synthesizeCall] using hr
  | true =>
    have hflow : synthesisFlow tempDir ts tsNum true raw fs ledger =
        ((synthesize tempDir ts raw fs).2.2,
         ledger ++ [mkGen tsNum (synthesize tempDir ts raw fs).2.2
                      (synthesize tempDir ts raw fs).1 (synthesize tempDir ts raw fs).2.1]) := by
      simp [synthesisFlow, synthesizeCall]
    rw [hflow] at hr
    rcases List.mem_append.mp hr with hold | hnew
    · exact Or.inl hold
    · right
      intro hne
      rw [hflow]
      have hr' : r = mkGen tsNum (synthesize tempDir ts raw fs).2.2
          (synthesize tempDir ts raw fs).1 (synthesize tempDir ts raw fs).2.1 := by
        simpa using hnew
      rw [hr'] at hne ⊢
      exact mkGen_combined_exists _ _ _ _ hne

theorem C9_witness :
    (⟨0, [⟨"hi", "H", "t/chunk_s_0.wav"⟩], "t/combined_s.wav"⟩ : GenRecord) ∈
        ([] : List GenRecord) ∨
      ((⟨0, [⟨"hi", "H", "t/chunk_s_0.wav"⟩], "t/combined_s.wav"⟩ : GenRecord).combined ≠ "" →
        fileExists (synthesisFlow "t" "s" 0 true [⟨"hi", "H", some [1]⟩] [] []).1
          (⟨0, [⟨"hi", "H", "t/chunk_s_0.wav"⟩], "t/combined_s.wav"⟩ : GenRecord).combined =
          true) :=
  C9_combined_invariant "t" "s" 0 true [⟨"hi", "H", some [1]⟩] [] []
    ⟨0, [⟨"hi", "H", "t/chunk_s_0.wav"⟩], "t/combined_s.wav"⟩ (by decide)

/-! ### The submit handler as an action trace (ui_main.py, on_synthesize_clicked) -/

/-- Primitive effects performed by on_synthesize_clicked and its worker,
in program order.  Queued cross-thread invocations (QMetaObject.invokeMethod
and signal emission) are modelled as the actions they enqueue. -/
inductive Action where
  | setSubmitEnabled (b : Bool)
  | statusMsg (s : String)
  | spawnWorker
  | appendLedger (r : GenRecord)
  | saveLedger
  | updateGenTime
  | setWaveformFile (p : String)
  | emitFinished
  | showError
deriving DecidableEq, Repr

/-- The UI-visible state touched by the submit handler. -/
structure UIState where
  submitEnabled : Bool
  status : String
  ledger : List GenRecord
  savedLedger : List GenRecord
  currentFilepath : Option String
  workersSpawned : Nat
  errorsShown : Nat
  genTimeUpdates : Nat
  finishedSignals : Nat
deriving DecidableEq, Repr

def applyAction (st : UIState) : Action → UIState
  | .setSubmitEnabled b => { st with submitEnabled := b }
  | .statusMsg s => { st with status := s }
  | .spawnWorker => { st with workersSpawned := st.workersSpawned + 1 }
  | .appendLedger r => { st with ledger := st.ledger ++ [r] }
  | .saveLedger => { st with savedLedger := st.ledger }
  | .updateGenTime => { st with genTimeUpdates := st.genTimeUpdates + 1 }
  | .setWaveformFile p => { st with currentFilepath := some p }
  | .emitFinished => { st with finishedSignals := st.finishedSignals + 1 }
  | .showError => { st with errorsShown := st.errorsShown + 1 }

def applyTrace (st : UIState) (tr : List Action) : UIState := tr.foldl applyAction st

/-- The characters Python str.strip removes: exactly the codepoints for
which str.isspace holds, enumerated over the full Unicode range
(0x09-0x0d, 0x1c-0x1f, space, NEL 0x85, NBSP 0xa0, Ogham space 0x1680,
the 0x2000-0x200a spaces, line and paragraph separators 0x2028-0x2029,
narrow no-break space 0x202f, medium mathematical space 0x205f, and
ideographic space 0x3000). -/
def isPySpace (c : Char) : Bool :=
  (0x09 ≤ c.toNat ∧ c.toNat ≤ 0x0d) ∨ (0x1c ≤ c.toNat ∧ c.toNat ≤ 0x20) ∨
    c.toNat = 0x85 ∨ c.toNat = 0xa0 ∨ c.toNat = 0x1680 ∨
    (0x2000 ≤ c.toNat ∧ c.toNat ≤ 0x200a) ∨ c.toNat = 0x2028 ∨ c.toNat = 0x2029 ∨
    c.toNat = 0x202f ∨ c.toNat = 0x205f ∨ c.toNat = 0x3000

/-- Python str.strip as used on the submitted text: drop leading and
trailing whitespace characters. -/
def strip (s : String) : String :=
  ⟨((s.data.dropWhile isPySpace).reverse.dropWhile isPySpace).reverse⟩

/-- The full trace of one submission, mirroring on_synthesize_clicked:
strip the text; if it is empty return immediately with no effect;
otherwise disable the submit control, post the status message, spawn the
worker, run the try/except body of run_synthesis for the given outcome,
and finally (the finally clause) re-enable the submit control. -/
def onSynthesizeClicked (text : String) (tempDir ts : String) (tsNum : Int)
    (voiceOk : Bool) (raw : List RawChunk) (fs : FS) : List Action :=
  if (strip text) = "" then []
  else
    [Action.setSubmitEnabled false, Action.statusMsg "Synthesizing...", Action.spawnWorker]
      ++ ((match synthesizeCall voiceOk tempDir ts raw fs with
           | .error _ => [Action.statusMsg "Synthesis error.", Action.showError]
           | .ok (chunks, comb, fs') =>
             [Action.appendLedger (mkGen tsNum fs' chunks comb), Action.saveLedger,
              Action.updateGenTime]
               ++ (match comb with
                   | none => []
                   | some p =>
                     if p = "" then [] else [Action.setWaveformFile p])
               ++ [Action.emitFinished, Action.statusMsg "Synthesis complete."])
          ++ [Action.setSubmitEnabled true])

/-- Claim C5: for every submission with non-empty text, the first action
of the submission trace disables the submit control and the last action
re-enables it, for every worker outcome (completion or failure), the
re-enable coming from the finally clause. -/
theorem C5_submit_control_toggle (text : String) (tempDir ts : String) (tsNum : Int)
    (voiceOk : Bool) (raw : List RawChunk) (fs : FS) (h : (strip text) ≠ "") :
    (onSynthesizeClicked text tempDir ts tsNum voiceOk raw fs).head? =
        some (Action.setSubmitEnabled false) ∧
      (onSynthesizeClicked text tempDir ts tsNum voiceOk raw fs).getLast? =
        some (Action.setSubmitEnabled true) := by
  unfold onSynthesizeClicked
  rw [if_neg h]
  constructor
  · rfl
  · rw [← List.append_assoc]
    exact List.getLast?_concat _

theorem C5_witness :
    ((strip "hello") ≠ "") ∧
      ((onSynthesizeClicked "hello" "t" "s" 0 true [⟨"a", "A", some [1]⟩] []).head? =
          some (Action.setSubmitEnabled false) ∧
        (onSynthesizeClicked "hello" "t" "s" 0 true [⟨"a", "A", some [1]⟩] []).getLast? =
          some (Action.setSubmitEnabled true)) :=
  ⟨by decide,
   C5_submit_control_toggle "hello" "t" "s" 0 true [⟨"a", "A", some [1]⟩] [] (by decide)⟩

/-- Claim C10: if the submitted text is empty or whitespace-only, the
handler returns before doing anything: the trace is empty, no worker is
spawned, and applying the trace leaves any UI state unchanged. -/
theorem C10_empty_text_noop (text : String) (tempDir ts : String) (tsNum : Int)
    (voiceOk : Bool) (raw : List RawChunk) (fs : FS) (st : UIState)
    (h : (strip text) = "") :
    onSynthesizeClicked text tempDir ts tsNum voiceOk raw fs = [] ∧
      Action.spawnWorker ∉ onSynthesizeClicked text tempDir ts tsNum voiceOk raw fs ∧
      applyTrace st (onSynthesizeClicked text tempDir ts tsNum voiceOk raw fs) = st := by
  have he : onSynthesizeClicked text tempDir ts tsNum voiceOk raw fs = [] := by
    unfold onSynthesizeClicked
    rw [if_pos h]
  refine ⟨he, ?_, ?_⟩
  · rw [he]; exact List.not_mem_nil _
  · rw [he]; rfl

theorem C10_witness :
    ((strip " \x0b\u00a0") = "") ∧
      (onSynthesizeClicked " \x0b\u00a0" "t" "s" 0 true [] [] = [] ∧
        Action.spawnWorker ∉ onSynthesizeClicked " \x0b\u00a0" "t" "s" 0 true [] [] ∧
        applyTrace ⟨true, "Ready", [], [], none, 0, 0, 0, 0⟩
          (onSynthesizeClicked " \x0b\u00a0" "t" "s" 0 true [] []) =
          ⟨true, "Ready", [], [], none, 0, 0, 0, 0⟩) :=
  ⟨by decide,
   C10_empty_text_noop " \x0b\u00a0" "t" "s" 0 true [] [] ⟨true, "Ready", [], [], none, 0, 0, 0, 0⟩
     (by decide)⟩


/-! ### Clear Temp Files (ui_main.py, clear_temp_files) and the reaper
(temp_cleanup.py, cleanup_temp_files) -/

/-- One entry of a directory listing, with its last-modified time (unix
seconds, integral model of the float) and whether it is a regular file. -/
structure DirEntry where
  name : String
  mtime : Int
  isFile : Bool
deriving DecidableEq, Repr

/-- clear_temp_files of ui_main.py: delete every listing entry whose name
starts with chunk_ (no age check there), and set the chunks list of every
ledger record to empty; the ledger is then rewritten and the table
repopulated.  Returns the surviving entries and the new ledger. -/
def clearTempFiles (entries : List DirEntry) (ledger : List GenRecord) :
    List DirEntry × List GenRecord :=
  (entries.filter (fun e => !(e.name.startsWith "chunk_")),
   ledger.map (fun g => { g with chunks := [] }))

/-- Claim C6: the purge-chunk-references part of Clear Temp Files sets
every record chunk list to empty while keeping every record: the count is
unchanged and the record at each position keeps its timestamp and
combined fields. -/
theorem C6_purge_keeps_records (entries : List DirEntry) (ledger : List GenRecord) :
    ((clearTempFiles entries ledger).2).length = ledger.length ∧
      ∀ (i : Nat) (hi : i < ((clearTempFiles entries ledger).2).length)
        (hj : i < ledger.length),
        (((clearTempFiles entries ledger).2).get ⟨i, hi⟩).chunks = [] ∧
        (((clearTempFiles entries ledger).2).get ⟨i, hi⟩).timestamp =
          (ledger.get ⟨i, hj⟩).timestamp ∧
        (((clearTempFiles entries ledger).2).get ⟨i, hi⟩).combined =
          (ledger.get ⟨i, hj⟩).combined := by
  constructor
  · simp [clearTempFiles]
  · intro i hi hj
    simp [clearTempFiles, List.get_eq_getElem, List.getElem_map]

theorem C6_witness :
    (((clearTempFiles [] [⟨7, [⟨"g", "p", "f.wav"⟩], "c.wav"⟩]).2).length =
        ([⟨7, [⟨"g", "p", "f.wav"⟩], "c.wav"⟩] : List GenRecord).length) ∧
      ((((clearTempFiles [] [⟨7, [⟨"g", "p", "f.wav"⟩], "c.wav"⟩]).2).get ⟨0, by decide⟩).chunks =
          [] ∧
        ((((clearTempFiles [] [⟨7, [⟨"g", "p", "f.wav"⟩], "c.wav"⟩]).2).get
            ⟨0, by decide⟩).timestamp =
          ((([⟨7, [⟨"g", "p", "f.wav"⟩], "c.wav"⟩] : List GenRecord)).get
            ⟨0, by decide⟩).timestamp) ∧
        ((((clearTempFiles [] [⟨7, [⟨"g", "p", "f.wav"⟩], "c.wav"⟩]).2).get
            ⟨0, by decide⟩).combined =
          ((([⟨7, [⟨"g", "p", "f.wav"⟩], "c.wav"⟩] : List GenRecord)).get
            ⟨0, by decide⟩).combined)) :=
  ⟨(C6_purge_keeps_records [] [⟨7, [⟨"g", "p", "f.wav"⟩], "c.wav"⟩]).1,
   (C6_purge_keeps_records [] [⟨7, [⟨"g", "p", "f.wav"⟩], "c.wav"⟩]).2 0 (by decide) (by decide)⟩

/-- cleanup_temp_files of temp_cleanup.py: an entry is deleted exactly
when it is a regular file, its name starts with chunk_, and its age
(now minus last-modified time) strictly exceeds retention_days worth of
seconds.  Times are unix seconds (integral model of the floats). -/
def shouldRemove (now retentionDays : Int) (e : DirEntry) : Bool :=
  e.isFile && e.name.startsWith "chunk_" && decide (now - e.mtime > retentionDays * 86400)

/-- The scan itself: every entry not selected for deletion survives, in
listing order.  Deletion is modelled as succeeding (a per-file deletion
error only logs and continues the scan). -/
def cleanupTempFiles (now retentionDays : Int) (entries : List DirEntry) : List DirEntry :=
  entries.filter (fun e => !shouldRemove now retentionDays e)

/-- Claim C4: for every file entry of the temp directory listing: if its
name starts with chunk_ and its age exceeds the retention threshold it is
removed; if its name starts with chunk_ but its age does not exceed the
threshold it is retained; and an entry whose name does not start with
chunk_ is retained regardless of age. -/
theorem C4_reaper_cases (now retentionDays : Int) (entries : List DirEntry)
    (e : DirEntry) (he : e ∈ entries) (hf : e.isFile = true) :
    ((e.name.startsWith "chunk_" = true ∧ now - e.mtime > retentionDays * 86400) →
        e ∉ cleanupTempFiles now retentionDays entries) ∧
      ((e.name.startsWith "chunk_" = true ∧ ¬(now - e.mtime > retentionDays * 86400)) →
        e ∈ cleanupTempFiles now retentionDays entries) ∧
      (e.name.startsWith "chunk_" = false →
        e ∈ cleanupTempFiles now retentionDays entries) := by
  refine ⟨?_, ?_, ?_⟩
  · rintro ⟨hpre, hage⟩ hmem
    rcases List.mem_filter.mp hmem with ⟨-, hkeep⟩
    simp [shouldRemove, hf, hpre, hage] at hkeep
  · rintro ⟨hpre, hage⟩
    refine List.mem_filter.mpr ⟨he, ?_⟩
    simp [shouldRemove, hage]
  · intro hpre
    refine List.mem_filter.mpr ⟨he, ?_⟩
    simp [shouldRemove, hpre]

theorem C4_witness :
    (((⟨"chunk_old.wav", 0, true⟩ : DirEntry).name.startsWith "chunk_" = true ∧
          (1000000 : Int) - (0 : Int) > 7 * 86400) →
        (⟨"chunk_old.wav", 0, true⟩ : DirEntry) ∉
          cleanupTempFiles 1000000 7
            [⟨"chunk_old.wav", 0, true⟩, ⟨"chunk_new.wav", 999999, true⟩,
             ⟨"combined_old.wav", 0, true⟩]) ∧
      (((⟨"chunk_old.wav", 0, true⟩ : DirEntry).name.startsWith "chunk_" = true ∧
            ¬((1000000 : Int) - (0 : Int) > 7 * 86400)) →
          (⟨"chunk_old.wav", 0, true⟩ : DirEntry) ∈
            cleanupTempFiles 1000000 7
              [⟨"chunk_old.wav", 0, true⟩, ⟨"chunk_new.wav", 999999, true⟩,
               ⟨"combined_old.wav", 0, true⟩]) ∧
      ((⟨"chunk_old.wav", 0, true⟩ : DirEntry).name.startsWith "chunk_" = false →
        (⟨"chunk_old.wav", 0, true⟩ : DirEntry) ∈
          cleanupTempFiles 1000000 7
            [⟨"chunk_old.wav", 0, true⟩, ⟨"chunk_new.wav", 999999, true⟩,
             ⟨"combined_old.wav", 0, true⟩]) :=
  C4_reaper_cases 1000000 7
    [⟨"chunk_old.wav", 0, true⟩, ⟨"chunk_new.wav", 999999, true⟩,
     ⟨"combined_old.wav", 0, true⟩]
    ⟨"chunk_old.wav", 0, true⟩ (by decide) (by decide)

/-! ### Generation ledger persistence (persistence.py) -/

/-- JSON values as stored in the ledger file; numbers are exact rationals
(a well-formed ledger contains no NaN or infinity, so json.dump followed
by json.load is the identity on its values). -/
inductive Json where
  | null
  | bool (b : Bool)
  | num (q : Rat)
  | str (s : String)
  | arr (xs : List Json)
  | obj (fields : List (String × Json))

/-- Contents of the persisted files: each path maps to nothing (missing
file) or to the parse result of its contents (Except models a file that
exists but cannot be read or decoded). -/
abbrev FileStore := String → Option (Except Unit Json)

/-- persistence.load_generations: a missing file yields the empty list; a
read or parse error is caught, printed, and yields the empty list;
otherwise the parsed value is returned as-is. -/
def loadGenerations (store : FileStore) (filePath : String) : Json :=
  match store filePath with
  | none => .arr []
  | some (.error _) => .arr []
  | some (.ok v) => v

/-- persistence.save_generations: rewrite the file wholesale with the
serialised list (json.dump; the json module is an external collaborator,
so the store records the value the written text parses back to). -/
def saveGenerations (store : FileStore) (filePath : String) (gens : Json) : FileStore :=
  fun p => if p = filePath then some (.ok gens) else store p

def isChunkJson : Json → Bool
  | .obj [("graphemes", .str _), ("phonemes", .str _), ("filepath", .str _)] => true
  | _ => false

def isRecordJson : Json → Bool
  | .obj [("timestamp", .num _), ("chunks", .arr cs), ("combined", .str _)] =>
    cs.all isChunkJson
  | _ => false

/-- A well-formed ledger: an array of records in the persisted format of
the design (timestamp number, chunks array of chunk objects, combined
string). -/
def isWellFormedLedger : Json → Bool
  | .arr rs => rs.all isRecordJson
  | _ => false

/-- Claim C3: saving a well-formed list of generation records to the
ledger file and loading it back returns the same list. -/
theorem C3_ledger_round_trip (store : FileStore) (filePath : String) (gens : Json)
    (h : isWellFormedLedger gens = true) :
    loadGenerations (saveGenerations store filePath gens) filePath = gens := by
  unfold loadGenerations saveGenerations
  simp

theorem C3_witness :
    isWellFormedLedger
        (Json.arr [Json.obj
          [("timestamp", Json.num 1700000000),
           ("chunks", Json.arr [Json.obj
             [("graphemes", Json.str "Hello world."),
              ("phonemes", Json.str "h@loU w@rld"),
              ("filepath", Json.str "outputs/temp_audio/chunk_x_0.wav")]]),
           ("combined", Json.str "outputs/temp_audio/combined_x.wav")]]) = true ∧
      loadGenerations
          (saveGenerations (fun _ => none) "outputs/generations.json"
            (Json.arr [Json.obj
              [("timestamp", Json.num 1700000000),
               ("chunks", Json.arr [Json.obj
                 [("graphemes", Json.str "Hello world."),
                  ("phonemes", Json.str "h@loU w@rld"),
                  ("filepath", Json.str "outputs/temp_audio/chunk_x_0.wav")]]),
               ("combined", Json.str "outputs/temp_audio/combined_x.wav")]]))
          "outputs/generations.json" =
        Json.arr [Json.obj
          [("timestamp", Json.num 1700000000),
           ("chunks", Json.arr [Json.obj
             [("graphemes", Json.str "Hello world."),
              ("phonemes", Json.str "h@loU w@rld"),
              ("filepath", Json.str "outputs/temp_audio/chunk_x_0.wav")]]),
           ("combined", Json.str "outputs/temp_audio/combined_x.wav")]] :=
  ⟨by rfl,
   C3_ledger_round_trip (fun _ => none) "outputs/generations.json"
     (Json.arr [Json.obj
       [("timestamp", Json.num 1700000000),
        ("chunks", Json.arr [Json.obj
          [("graphemes", Json.str "Hello world."),
           ("phonemes", Json.str "h@loU w@rld"),
           ("filepath", Json.str "outputs/temp_audio/chunk_x_0.wav")]]),
        ("combined", Json.str "outputs/temp_audio/combined_x.wav")]])
     (by rfl)⟩

/-! ### Voice and model artifact store (models.py) -/

/-- models.py download_file: check local existence before any fetch; on a
hit return the existing local path with no network activity; on a miss
attempt the hub download (fetchOk says whether it succeeds), returning
the downloaded path, or the empty string on a failed fetch.  The third
component counts network fetch attempts; os.path.join of the local
directory with the filename is the already-joined path, with a leading
current-directory component normalised away. -/
def downloadFile (fs : FS) (localPath : String) (fetchOk : Bool) : FS × String × Nat :=
  if fileExists fs localPath then (fs, localPath, 0)
  else if fetchOk then (localPath :: fs, localPath, 1)
  else (fs, "", 1)

/-- The VOICE_FILES constant of models.py. -/
def voiceFiles : List String :=
  ["af_alloy.pt", "af_aoede.pt", "af_bella.pt", "af_jessica.pt",
   "af_kore.pt", "af_nicole.pt", "af_nova.pt", "af_river.pt",
   "af_sarah.pt", "af_sky.pt",
   "am_adam.pt", "am_echo.pt", "am_eric.pt", "am_fenrir.pt",
   "am_liam.pt", "am_michael.pt", "am_onyx.pt", "am_puck.pt",
   "am_santa.pt",
   "bf_alice.pt", "bf_emma.pt", "bf_isabella.pt", "bf_lily.pt",
   "bm_daniel.pt", "bm_fable.pt", "bm_george.pt", "bm_lewis.pt",
   "el_dora.pt", "em_alex.pt", "em_santa.pt",
   "ff_siwis.pt",
   "hf_alpha.pt", "hf_beta.pt",
   "hm_omega.pt", "hm_psi.pt",
   "jf_sara.pt", "jm_nicola.pt",
   "jf_alpha.pt", "jf_gongtsuene.pt", "jf_nezumi.pt", "jf_tebukuro.pt",
   "jm_kumo.pt",
   "pf_dora.pt", "pm_alex.pt", "pm_santa.pt",
   "zf_xiaobei.pt", "zf_xiaoni.pt", "zf_xiaoqiao.pt", "zf_xiaoyi.pt"]

/-- models.py download_voice_files with force_download left False (as
invoked from load_voice): each listed voice is downloaded only when its
file is missing.  Returns the file system and the fetch-attempt count. -/
def downloadVoiceFiles (fs : FS) (fetchOk : Bool) : FS × Nat :=
  voiceFiles.foldl
    (fun acc vf =>
      let vpath := "voices/" ++ vf
      if fileExists acc.1 vpath then acc
      else
        let r := downloadFile acc.1 vpath fetchOk
        (r.1, acc.2 + r.2.2))
    (fs, 0)

/-- Python str.replace of the substring .pt by the empty string, scanning
left to right (as applied to the voice name in load_voice). -/
def removePtChars : List Char → List Char
  | [] => []
  | '.' :: 'p' :: 't' :: rest => removePtChars rest
  | c :: rest => c :: removePtChars rest

def removePt (s : String) : String := ⟨removePtChars s.data⟩

/-- models.py load_voice, fetch-guard part: strip any .pt extension,
form voices/NAME.pt, and only when that file is missing run
download_voice_files, failing if the file is still missing afterwards.
(The pipeline.load_voice call on the existing file is outside the store
contract.)  Returns the file system, the outcome, and the fetch count. -/
def loadVoice (fs : FS) (voiceName : String) (fetchOk : Bool) :
    FS × Except Unit String × Nat :=
  let vpath := "voices/" ++ removePt voiceName ++ ".pt"
  if fileExists fs vpath then (fs, .ok vpath, 0)
  else
    let r := downloadVoiceFiles fs fetchOk
    if fileExists r.1 vpath then (r.1, .ok vpath, r.2)
    else (r.1, .error (), r.2)

/-- models.py build_model, config-ensure half: config.json is downloaded
only when missing, and a failed fetch (empty returned path) raises. -/
def ensureConfig (fs : FS) (modelPath : String) (n : Nat) (fetchOk : Bool) :
    FS × Except Unit (String × String) × Nat :=
  if fileExists fs "config.json" then (fs, .ok (modelPath, "config.json"), n)
  else
    let r := downloadFile fs "config.json" fetchOk
    if r.2.1 = "" then (r.1, .error (), n + r.2.2)
    else (r.1, .ok (modelPath, r.2.1), n + r.2.2)

/-- models.py build_model, artifact-ensure part (run on first pipeline
construction): the model weights file is downloaded only when missing (a
failed fetch raises), then the config file likewise. -/
def buildModelEnsure (fs : FS) (modelPath : String) (fetchOk : Bool) :
    FS × Except Unit (String × String) × Nat :=
  if fileExists fs modelPath then ensureConfig fs modelPath 0 fetchOk
  else
    let r := downloadFile fs "kokoro-v1_0.pth" fetchOk
    if r.2.1 = "" then (r.1, .error (), r.2.2)
    else ensureConfig r.1 r.2.1 r.2.2 fetchOk

/-- Claim C8: for each artifact kind, local existence is checked before
any network fetch and the fetch is skipped entirely when the artifact is
present: ensuring an already-present file performs zero fetch attempts
and leaves the file system unchanged (idempotent, no re-validation). -/
theorem C8_ensure_skips_fetch_when_present (fs : FS) (p modelPath voiceName : String)
    (fetchOk : Bool) :
    (fileExists fs p = true → downloadFile fs p fetchOk = (fs, p, 0)) ∧
      (fileExists fs modelPath = true → fileExists fs "config.json" = true →
        buildModelEnsure fs modelPath fetchOk = (fs, .ok (modelPath, "config.json"), 0)) ∧
      (fileExists fs ("voices/" ++ removePt voiceName ++ ".pt") = true →
        loadVoice fs voiceName fetchOk =
          (fs, .ok ("voices/" ++ removePt voiceName ++ ".pt"), 0)) := by
  refine ⟨?_, ?_, ?_⟩
  · intro hp
    unfold downloadFile
    rw [if_pos hp]
  · intro hm hc
    unfold buildModelEnsure ensureConfig
    rw [if_pos hm, if_pos hc]
  · intro hv
    unfold loadVoice
    rw [if_pos hv]

theorem C8_witness :
    (fileExists ["kokoro-v1_0.pth", "config.json", "voices/af_bella.pt"] "kokoro-v1_0.pth" =
          true →
        downloadFile ["kokoro-v1_0.pth", "config.json", "voices/af_bella.pt"]
            "kokoro-v1_0.pth" true =
          (["kokoro-v1_0.pth", "config.json", "voices/af_bella.pt"], "kokoro-v1_0.pth", 0)) ∧
      (fileExists ["kokoro-v1_0.pth", "config.json", "voices/af_bella.pt"] "kokoro-v1_0.pth" =
            true →
          fileExists ["kokoro-v1_0.pth", "config.json", "voices/af_bella.pt"] "config.json" =
            true →
          buildModelEnsure ["kokoro-v1_0.pth", "config.json", "voices/af_bella.pt"]
              "kokoro-v1_0.pth" true =
            (["kokoro-v1_0.pth", "config.json", "voices/af_bella.pt"],
             .ok ("kokoro-v1_0.pth", "config.json"), 0)) ∧
      (fileExists ["kokoro-v1_0.pth", "config.json", "voices/af_bella.pt"]
            ("voices/" ++ removePt "af_bella" ++ ".pt") = true →
        loadVoice ["kokoro-v1_0.pth", "config.json", "voices/af_bella.pt"] "af_bella" true =
          (["kokoro-v1_0.pth", "config.json", "voices/af_bella.pt"],
           .ok ("voices/" ++ removePt "af_bella" ++ ".pt"), 0)) :=
  C8_ensure_skips_fetch_when_present
    ["kokoro-v1_0.pth", "config.json", "voices/af_bella.pt"]
    "kokoro-v1_0.pth" "kokoro-v1_0.pth" "af_bella" true

end Kokoro
